import Mathlib

/-!
Verification development for `src/easyXDM.Widgets.js` (easyXDM widget layer).

The file shallowly embeds the two classes of the source file:

* `easyXDM.WidgetManager` — the broker owning the `_widgets` map (url → active
  widget), the `_subscribers` table (topic → list of urls) and the `_channelNr`
  counter, with operations `addWidget`, `removeWidget`, `publish`, `broadcast`
  and the private helpers `_subscribe`, `_publish`, `_raiseEvent`,
  `_initializeWidget`, `_setUpWidget`.
* `easyXDM.Widget` — the peer-side wrapper with its local `initialize` and
  `send` methods and the public `publish`/`subscribe`/`registerMessageHandler`.

Modelling conventions:

* JavaScript objects used as string-keyed tables (`_widgets`, `_subscribers`,
  `config.listeners`) are modelled as association lists over their own
  enumerable keys; prototype-chain lookups for exotic keys such as
  `"toString"` are outside the model.
* Remote `send` invocations are not executed; `_publish` and `broadcast`
  return the list of calls they issue.  A JavaScript `TypeError` (calling a
  member of `undefined`, or a missing method) is modelled by `Except.error`;
  calls issued before a crash are not reported, only the `Except.ok` branch
  is used positively by the theorems.
* Opaque payloads (the `data` argument) are modelled as `String`; handler
  functions are identified by `Nat` tags since only *which* handler is
  invoked with *which* arguments is observable here.
* `ManagerState` carries two history fields that have no counterpart in the
  JavaScript state, `channelIds` (every channel id ever handed to
  `easyXDM.Interface`) and `registered` (every url ever passed to a
  successful `addWidget` call); they only record what happened and never
  influence any operation.
-/

namespace EasyXDM

/-- Remote `send(url, topic, data)` call issued over a widget's channel:
`target` is the url whose channel carries the call. -/
structure SendCall where
  target : String
  senderUrl : String
  topic : String
  data : String
deriving DecidableEq, Repr

/-- Response object produced by a widget's `initialize` local method:
`{isInitialized: ..., subscriptions: ...}`. -/
structure InitResponse where
  isInitialized : Bool
  subscriptions : List String
deriving DecidableEq, Repr

/-- State owned by one `easyXDM.WidgetManager` instance.  `widgets` is the
key list of the `_widgets` object (a url is a key exactly when its handshake
succeeded and it was not removed), `subscribers` is the `_subscribers` object
as an association list topic → url list (JavaScript `push` appends),
`channels` is the list of urls whose `easyXDM.Interface` is currently alive
(created by `_setUpWidget`, torn down by `destroy`), `channelNr` is
`_channelNr`.  `channelIds` and `registered` are history fields, see the
module docstring. -/
structure ManagerState where
  widgets : List String
  subscribers : List (String × List String)
  channels : List String
  channelNr : Nat
  channelIds : List String
  registered : List String
deriving DecidableEq, Repr

/-- Lookup of `subs[topic]` in the `_subscribers` object: `some` exactly when
`topic` is an own key. -/
def lookupSubs : List (String × List String) → String → Option (List String)
  | [], _ => none
  | (t, us) :: rest, topic => if t = topic then some us else lookupSubs rest topic

/-- Url list registered under `topic`, the empty list when the key is absent. -/
def subsOfL (subs : List (String × List String)) (topic : String) : List String :=
  match lookupSubs subs topic with
  | none => []
  | some us => us

/-- The private `_subscribe(url, topic)`: if `topic` is not yet a key of
`_subscribers` it is created with the empty array, then `url` is pushed
(appended).  No duplicate check is performed by the source. -/
def _subscribe (subs : List (String × List String)) (url topic : String) :
    List (String × List String) :=
  match subs with
  | [] => [(topic, [url])]
  | (t, us) :: rest =>
      if t = topic then (t, us ++ [url]) :: rest
      else (t, us) :: _subscribe rest url topic

/-- Iterated `_subscribe` of one url under each topic of the list, in list
order. -/
def subscribeMany (subs : List (String × List String)) (url : String) :
    List String → List (String × List String)
  | [] => subs
  | t :: ts => subscribeMany (_subscribe subs url t) url ts

/-- Append `url` to the key list unless it is already a key: the effect of
the assignment `_widgets[url] = widget` on the object's own keys. -/
def insertIfAbsent (l : List String) (url : String) : List String :=
  if url ∈ l then l else l ++ [url]

/-- Removal of the first occurrence of `url` from a list; used for `delete
_widgets[url]` (keys are unique) and for a `destroy()` of one channel. -/
def removeFirst : List String → String → List String
  | [], _ => []
  | u :: rest, url => if u = url then rest else u :: removeFirst rest url

/-- The backwards scan of `removeWidget` over one topic's array: `while (i--)`
starting at the end, `splice` the first hit, then `break` — so exactly the
*last* occurrence of `url` is removed, and only that one. -/
def removeLastOcc (us : List String) (url : String) : List String :=
  (removeFirst us.reverse url).reverse

/-- Channel id `"widget" + _channelNr` passed to `easyXDM.Interface` by
`_setUpWidget` (JavaScript number-to-string coercion is decimal). -/
def mkChannelId (n : Nat) : String := "widget" ++ Nat.repr n

/-- The fresh `WidgetManager` closure state: `_widgets = {}`,
`_subscribers = {}`, `_channelNr = 0`, no channels yet. -/
def initialState : ManagerState :=
  { widgets := [], subscribers := [], channels := [], channelNr := 0,
    channelIds := [], registered := [] }

/-- The public `addWidget(url, widgetConfig)`: throws
`"A widget with this url has already been initialized"` when `url in _widgets`
(the object holds only urls whose handshake succeeded), otherwise
`_setUpWidget` creates an `easyXDM.Interface` with channel id
`"widget" + _channelNr++`.  `widgetConfig` only selects the DOM container and
does not affect the modelled state. -/
def addWidget (s : ManagerState) (url : String) : Except String ManagerState :=
  if url ∈ s.widgets then
    Except.error "A widget with this url has already been initialized"
  else
    Except.ok { s with
      channels := url :: s.channels,
      channelNr := s.channelNr + 1,
      channelIds := s.channelIds ++ [mkChannelId s.channelNr],
      registered := url :: s.registered }

/-- Success branch of the `initialize` callback in `_initializeWidget`:
`_widgets[url] = widget`, then `while (i--) _subscribe(url, subscriptions[i])`
— the declared topics are processed from the last to the first. -/
def handshakeSuccess (s : ManagerState) (url : String) (topics : List String) :
    ManagerState :=
  { s with widgets := insertIfAbsent s.widgets url,
           subscribers := subscribeMany s.subscribers url topics.reverse }

/-- Failure branch of the `initialize` callback: `widget.destroy()` tears the
channel down; the subscriber table is *not* cleaned (the source never entered
`url` into `_widgets`, but any subscriptions the widget already sent remain). -/
def handshakeFailure (s : ManagerState) (url : String) : ManagerState :=
  { s with channels := removeFirst s.channels url }

/-- The public `removeWidget(url)`: when `url in _widgets`, every topic of
`_subscribers` is scanned backwards and the last occurrence of `url` (if any)
is spliced out, then the widget's channel is destroyed and the key deleted;
otherwise nothing happens (a debug trace only). -/
def removeWidget (s : ManagerState) (url : String) : ManagerState :=
  if url ∈ s.widgets then
    { s with
      subscribers := s.subscribers.map (fun p => (p.1, removeLastOcc p.2 url)),
      channels := removeFirst s.channels url,
      widgets := removeFirst s.widgets url }
  else s

/-- Loop body chain of `_publish` over the already-reversed subscriber list:
for each `widgetUrl` different from the sender, the source evaluates
`_widgets[widgetUrl].send(url, topic, data)` — a `TypeError` when `widgetUrl`
is not a key of `_widgets`. -/
def sendToSubscribers (widgets : List String) (url topic data : String) :
    List String → Except String (List SendCall)
  | [] => Except.ok []
  | w :: rest =>
    if w = url then sendToSubscribers widgets url topic data rest
    else if w ∈ widgets then
      match sendToSubscribers widgets url topic data rest with
      | Except.ok calls =>
          Except.ok ({ target := w, senderUrl := url, topic := topic, data := data } :: calls)
      | Except.error e => Except.error e
    else Except.error "TypeError: cannot call send of undefined"

/-- The private `_publish(url, topic, data)`: with no entry for `topic` the
guard `if (subscribers)` fails and nothing happens; otherwise the subscriber
array is walked by `while (i--)` from its end. -/
def _publish (s : ManagerState) (url topic data : String) :
    Except String (List SendCall) :=
  match lookupSubs s.subscribers topic with
  | none => Except.ok []
  | some us => sendToSubscribers s.widgets url topic data us.reverse

/-- The public `publish(topic, data)`: `_publish("", topic, data)` — the
Manager publishes with the empty string as sender url. -/
def publish (s : ManagerState) (topic data : String) :
    Except String (List SendCall) :=
  _publish s "" topic data

/-- The public `broadcast(data)`: `for (var url in _widgets)` followed by
`_widgets.hasOwnPropert(url)` — a misspelling of `hasOwnProperty`, so the
very first iteration throws a `TypeError`; only with zero widgets does the
loop body never run and the call return normally, having sent nothing. -/
def broadcast (s : ManagerState) (data : String) : Except String (List SendCall) :=
  match s.widgets with
  | [] => Except.ok []
  | _ :: _ => Except.error "TypeError: _widgets.hasOwnPropert is not a function"

/-- The private `_raiseEvent(event, arg)`: the source tests and calls
`config.listeners.event` — the property literally named `"event"` — and
never consults the `event` argument, so the listener table is probed for the
key `"event"` whatever event is being raised.  `listeners` is `none` when
`config.listeners` is absent; handlers are identified by `Nat` tags and the
result is the list of performed invocations `(handler, arg.url)`. -/
def _raiseEvent (listeners : Option (List (String × Nat))) (event : String)
    (argUrl : String) : List (Nat × String) :=
  match listeners with
  | none => []
  | some props =>
    match props.lookup "event" with
    | some h => [(h, argUrl)]
    | none => []

/-- The callback `_initializeWidget` installs on the widget's `initialize`
remote call: on `response.isInitialized` the widget is activated and its
declared subscriptions registered, then `_raiseEvent("widgetinitialized",
{url})`; otherwise the widget is destroyed and
`_raiseEvent("widgetfailed", {url})`.  Returns the new state together with
the listener invocations performed. -/
def _initializeWidget (s : ManagerState) (listeners : Option (List (String × Nat)))
    (url : String) (response : InitResponse) : ManagerState × List (Nat × String) :=
  if response.isInitialized then
    (handshakeSuccess s url response.subscriptions,
     _raiseEvent listeners "widgetinitialized" url)
  else
    (handshakeFailure s url,
     _raiseEvent listeners "widgetfailed" url)

/-- Externally triggered events that mutate one Manager's state: an
`addWidget` call, a `subscribe(topic)` remote call arriving from a widget
whose channel is alive (`_setUpWidget` installs that local method as soon as
the channel exists, before and after the handshake alike), the resolution of
a widget's `initialize` call, and a `removeWidget` call.  `publish` calls do
not change the state. -/
inductive Event where
  | addW (url : String)
  | subscribeFrom (url topic : String)
  | handshakeOk (url : String) (topics : List String)
  | handshakeFail (url : String)
  | removeW (url : String)

/-- One externally triggered transition.  A throwing `addWidget` leaves the
state unchanged; the widget-originated events require the widget's channel to
be alive. -/
def stepEvent (s : ManagerState) : Event → Option ManagerState
  | Event.addW url =>
      match addWidget s url with
      | Except.ok s' => some s'
      | Except.error _ => some s
  | Event.subscribeFrom url topic =>
      if url ∈ s.channels then
        some { s with subscribers := _subscribe s.subscribers url topic }
      else none
  | Event.handshakeOk url topics =>
      if url ∈ s.channels then some (handshakeSuccess s url topics) else none
  | Event.handshakeFail url =>
      if url ∈ s.channels then some (handshakeFailure s url) else none
  | Event.removeW url => some (removeWidget s url)

/-- States a single Manager instance can reach from construction. -/
inductive Reachable : ManagerState → Prop where
  | init : Reachable initialState
  | next {s s' : ManagerState} {e : Event} :
      Reachable s → stepEvent s e = some s' → Reachable s'

/-! ### The peer-side wrapper `easyXDM.Widget` -/

/-- Configuration handed to `easyXDM.Widget` by the hosted application, as far
as it is observable here: the static `subscriptions` array returned in the
handshake response, and the topics the hosted application's `initialize`
callback passes to `widget.subscribe` while it runs synchronously at
construction time (the callback interacts with the wrapper only through
`subscribe`/`publish`/`registerMessageHandler`, and of those only `subscribe`
calls are relevant to the handshake claims). -/
structure WidgetConfig where
  subscriptions : List String
  initializeSubscribes : List String
deriving DecidableEq, Repr

/-- Outbound remote `subscribe(topic)` calls the wrapper sends during its
construction: the last line of `easyXDM.Widget` runs
`config.initialize(this, _widgetHost)` synchronously, and each
`widget.subscribe(t)` made there forwards `t` over the channel to the
Manager's local `subscribe` method. -/
def widgetConstructOutbound (cfg : WidgetConfig) : List String :=
  cfg.initializeSubscribes

/-- The wrapper's local `initialize` method: runs `config.initialized` and
answers `{isInitialized: true, subscriptions: config.subscriptions}` — the
static configured array, not the topics passed to `subscribe`. -/
def widgetInitializeResponse (cfg : WidgetConfig) : InitResponse :=
  { isInitialized := true, subscriptions := cfg.subscriptions }

/-- The wrapper's local `send` method: the body is
`_incomingMessageHandler(url, topic, data)`.  When
`registerMessageHandler` has never been called the variable is still
`undefined` and the call throws a `TypeError`; otherwise the registered
handler (a `Nat` tag) is invoked with the three arguments. -/
def widgetReceiveSend (handler : Option Nat) (url topic data : String) :
    Except String (Nat × String × String × String) :=
  match handler with
  | none => Except.error "TypeError: _incomingMessageHandler is not a function"
  | some h => Except.ok (h, url, topic, data)

/-! ### Lemmas about the subscription table primitives -/

theorem lookupSubs_subscribe (subs : List (String × List String)) (url topic t : String) :
    lookupSubs ( _subscribe subs url topic) t =
      if t = topic then some (subsOfL subs topic ++ [url]) else lookupSubs subs t := by
  induction subs with
  | nil =>
      by_cases h : t = topic
      · subst h
        simp [ _subscribe, lookupSubs, subsOfL]
      · have h' : ¬topic = t := fun e => h e.symm
        simp [ _subscribe, lookupSubs, subsOfL, h, h']
  | cons p rest ih =>
      obtain ⟨pt, pus⟩ := p
      by_cases hp : pt = topic
      · subst hp
        by_cases ht : t = pt
        · subst ht
          simp [ _subscribe, lookupSubs, subsOfL]
        · have ht' : ¬pt = t := fun e => ht e.symm
          simp [ _subscribe, lookupSubs, subsOfL, ht, ht']
      · by_cases ht : pt = t
        · subst ht
          simp [ _subscribe, lookupSubs, subsOfL, hp]
        · simp [ _subscribe, lookupSubs, subsOfL, hp, ht, ih]

theorem subsOfL_subscribe (subs : List (String × List String)) (url topic t : String) :
    subsOfL ( _subscribe subs url topic) t =
      if t = topic then subsOfL subs topic ++ [url] else subsOfL subs t := by
  by_cases h : t = topic <;>
    simp [subsOfL, lookupSubs_subscribe, h]

theorem mem_subsOfL_subscribeMany (subs : List (String × List String))
    (url : String) (ts : List String) (t u : String) :
    u ∈ subsOfL (subscribeMany subs url ts) t ↔
      u ∈ subsOfL subs t ∨ (u = url ∧ t ∈ ts) := by
  induction ts generalizing subs with
  | nil => simp [subscribeMany]
  | cons t0 ts ih =>
      rw [subscribeMany, ih, subsOfL_subscribe]
      by_cases h : t = t0
      · subst h
        rw [if_pos rfl]
        simp only [List.mem_append, List.mem_singleton, List.mem_cons]
        tauto
      · simp only [if_neg h, List.mem_cons]
        constructor
        · rintro (hu | ⟨hu, ht⟩)
          · exact Or.inl hu
          · exact Or.inr ⟨hu, Or.inr ht⟩
        · rintro (hu | ⟨hu, ht | ht⟩)
          · exact Or.inl hu
          · exact absurd ht h
          · exact Or.inr ⟨hu, ht⟩

theorem removeFirst_sublist (l : List String) (x : String) :
    (removeFirst l x).Sublist l := by
  induction l with
  | nil => simp [removeFirst]
  | cons u rest ih =>
      by_cases h : u = x
      · simpa [removeFirst, h] using List.sublist_cons_self u rest
      · simpa [removeFirst, h] using List.Sublist.cons₂ u ih

theorem mem_of_mem_removeFirst {l : List String} {x u : String}
    (h : u ∈ removeFirst l x) : u ∈ l :=
  (removeFirst_sublist l x).mem h

theorem not_mem_removeFirst_of_count_le_one {l : List String} {x : String}
    (h : l.count x ≤ 1) : x ∉ removeFirst l x := by
  induction l with
  | nil => simp [removeFirst]
  | cons u rest ih =>
      by_cases hu : u = x
      · subst hu
        rw [List.count_cons_self] at h
        have : rest.count u = 0 := by omega
        simpa [removeFirst] using (List.count_eq_zero.mp this)
      · rw [List.count_cons_of_ne (fun hx => hu hx.symm)] at h
        simp only [removeFirst, if_neg hu, List.mem_cons]
        rintro (hx | hx)
        · exact hu hx.symm
        · exact ih h hx

theorem not_mem_removeLastOcc_of_count_le_one {l : List String} {x : String}
    (h : l.count x ≤ 1) : x ∉ removeLastOcc l x := by
  rw [removeLastOcc, List.mem_reverse]
  exact not_mem_removeFirst_of_count_le_one (by simpa using h)

theorem mem_of_mem_removeLastOcc {l : List String} {x u : String}
    (h : u ∈ removeLastOcc l x) : u ∈ l := by
  rw [removeLastOcc, List.mem_reverse] at h
  exact List.mem_reverse.mp (mem_of_mem_removeFirst h)

theorem mem_insertIfAbsent (l : List String) (x u : String) :
    u ∈ insertIfAbsent l x ↔ u ∈ l ∨ u = x := by
  by_cases h : x ∈ l
  · simp only [insertIfAbsent, if_pos h]
    constructor
    · exact Or.inl
    · rintro (hu | rfl)
      · exact hu
      · exact h
  · simp [insertIfAbsent, if_neg h]

theorem nodup_insertIfAbsent {l : List String} (hl : l.Nodup) (x : String) :
    (insertIfAbsent l x).Nodup := by
  by_cases h : x ∈ l
  · simpa [insertIfAbsent, h] using hl
  · simp only [insertIfAbsent, if_neg h]
    exact List.nodup_append.mpr
      ⟨hl, List.nodup_singleton x,
        fun b hb hbx => h ((List.mem_singleton.mp hbx) ▸ hb)⟩

theorem lookupSubs_removeLast (subs : List (String × List String)) (url t : String) :
    lookupSubs (subs.map fun p => (p.1, removeLastOcc p.2 url)) t
      = (lookupSubs subs t).map (fun us => removeLastOcc us url) := by
  induction subs with
  | nil => simp [lookupSubs]
  | cons p rest ih =>
      obtain ⟨pt, pus⟩ := p
      by_cases h : pt = t <;> simp [lookupSubs, h, ih]

theorem subsOfL_map_removeLast (subs : List (String × List String)) (url t : String) :
    subsOfL (subs.map fun p => (p.1, removeLastOcc p.2 url)) t
      = removeLastOcc (subsOfL subs t) url := by
  rw [subsOfL, lookupSubs_removeLast]
  cases h : lookupSubs subs t <;>
    simp [subsOfL, h, removeLastOcc, removeFirst]

/-! ### Injectivity of the decimal channel ids

`_setUpWidget` builds channel ids by JavaScript string concatenation
`"widget" + n`, embedded as `"widget" ++ Nat.repr n`.  To show distinct
counters give distinct ids we invert `Nat.repr` by evaluating the decimal
digit string back to a number. -/

/-- Numeric value of a decimal digit string. -/
def decValue (cs : List Char) : Nat :=
  cs.foldl (fun a c => a * 10 + (c.toNat - 48)) 0

theorem toDigitsCore_append (b f : Nat) :
    ∀ (n : Nat) (ds : List Char),
      Nat.toDigitsCore b f n ds = Nat.toDigitsCore b f n [] ++ ds := by
  induction f with
  | zero => intro n ds; simp [Nat.toDigitsCore]
  | succ f ih =>
      intro n ds
      by_cases h : n / b = 0
      · simp [Nat.toDigitsCore, h]
      · simp only [Nat.toDigitsCore, if_neg h]
        rw [ih (n / b) (Nat.digitChar (n % b) :: ds),
          ih (n / b) [Nat.digitChar (n % b)]]
        simp

theorem digitChar_toNat (d : Nat) (h : d < 10) :
    (Nat.digitChar d).toNat = 48 + d := by
  interval_cases d <;> decide

theorem decValue_toDigitsCore (f : Nat) :
    ∀ n : Nat, n < f → decValue (Nat.toDigitsCore 10 f n []) = n := by
  induction f with
  | zero => intro n h; omega
  | succ f ih =>
      intro n h
      by_cases h10 : n / 10 = 0
      · rw [show Nat.toDigitsCore 10 (f + 1) n [] = [Nat.digitChar (n % 10)] by
          simp [Nat.toDigitsCore, h10]]
        simp only [decValue, List.foldl_cons, List.foldl_nil]
        rw [digitChar_toNat (n % 10) (by omega)]
        omega
      · have hdiv : n / 10 < f := by omega
        rw [show Nat.toDigitsCore 10 (f + 1) n [] =
              Nat.toDigitsCore 10 f (n / 10) [] ++ [Nat.digitChar (n % 10)] by
          simp only [Nat.toDigitsCore, if_neg h10]
          exact toDigitsCore_append 10 f (n / 10) [Nat.digitChar (n % 10)]]
        simp only [decValue, List.foldl_append, List.foldl_cons, List.foldl_nil]
        rw [show (List.foldl (fun a c => a * 10 + (c.toNat - 48)) 0
              (Nat.toDigitsCore 10 f (n / 10) [])) = n / 10 from ih (n / 10) hdiv]
        rw [digitChar_toNat (n % 10) (by omega)]
        omega

theorem natRepr_injective : Function.Injective Nat.repr := by
  intro a b h
  have hd : Nat.toDigits 10 a = Nat.toDigits 10 b := by
    have h2 := congrArg String.data h
    simpa [Nat.repr, List.asString] using h2
  have ha := decValue_toDigitsCore (a + 1) a (Nat.lt_succ_self a)
  have hb := decValue_toDigitsCore (b + 1) b (Nat.lt_succ_self b)
  rw [show Nat.toDigitsCore 10 (a + 1) a [] = Nat.toDigits 10 a from rfl] at ha
  rw [show Nat.toDigitsCore 10 (b + 1) b [] = Nat.toDigits 10 b from rfl] at hb
  rw [hd] at ha
  exact ha.symm.trans hb

theorem mkChannelId_injective : Function.Injective mkChannelId := by
  intro a b h
  apply natRepr_injective
  apply String.ext
  have h2 := congrArg String.data h
  simp only [mkChannelId, String.data_append] at h2
  exact List.append_cancel_left h2

/-! ### Invariant of reachable Manager states -/

/-- Facts maintained by every transition: the `_widgets` key list is
duplicate-free, every url occurring in `_widgets`, in a live channel or in
the subscriber table was at some point passed to a non-throwing `addWidget`,
and the channel ids handed out so far are exactly
`"widget0", ..., "widget(_channelNr - 1)"` in order. -/
def StateInv (s : ManagerState) : Prop :=
  s.widgets.Nodup ∧
  (∀ u ∈ s.widgets, u ∈ s.registered) ∧
  (∀ u ∈ s.channels, u ∈ s.registered) ∧
  (∀ t u, u ∈ subsOfL s.subscribers t → u ∈ s.registered) ∧
  s.channelIds = (List.range s.channelNr).map mkChannelId

theorem stateInv_initial : StateInv initialState := by
  refine ⟨?_, ?_, ?_, ?_, ?_⟩ <;>
    simp [initialState, subsOfL, lookupSubs]

theorem reachable_inv {s : ManagerState} (h : Reachable s) : StateInv s := by
  induction h with
  | init => exact stateInv_initial
  | next hr hstep ih =>
      rename_i s s' e
      obtain ⟨hnd, hw, hc, hsub, hids⟩ := ih
      cases e with
      | addW url =>
          by_cases hmem : url ∈ s.widgets
          · simp only [stepEvent, addWidget, if_pos hmem] at hstep
            injection hstep with h'
            subst h'
            exact ⟨hnd, hw, hc, hsub, hids⟩
          · simp only [stepEvent, addWidget, if_neg hmem] at hstep
            injection hstep with h'
            subst h'
            refine ⟨hnd, ?_, ?_, ?_, ?_⟩
            · intro u hu
              exact List.mem_cons_of_mem _ (hw u hu)
            · intro u hu
              rcases List.mem_cons.mp hu with rfl | hu
              · exact List.mem_cons_self _ _
              · exact List.mem_cons_of_mem _ (hc u hu)
            · intro t u hu
              exact List.mem_cons_of_mem _ (hsub t u hu)
            · simp [hids, List.range_succ]
      | subscribeFrom url topic =>
          by_cases hch : url ∈ s.channels
          · simp only [stepEvent, if_pos hch] at hstep
            injection hstep with h'
            subst h'
            refine ⟨hnd, hw, hc, ?_, hids⟩
            intro t u hu
            rw [subsOfL_subscribe] at hu
            by_cases ht : t = topic
            · rw [if_pos ht] at hu
              rcases List.mem_append.mp hu with hu | hu
              · exact hsub topic u hu
              · rw [List.mem_singleton.mp hu]
                exact hc url hch
            · rw [if_neg ht] at hu
              exact hsub t u hu
          · simp [stepEvent, hch] at hstep
      | handshakeOk url topics =>
          by_cases hch : url ∈ s.channels
          · simp only [stepEvent, if_pos hch] at hstep
            injection hstep with h'
            subst h'
            refine ⟨nodup_insertIfAbsent hnd url, ?_, hc, ?_, hids⟩
            · intro u hu
              rcases (mem_insertIfAbsent _ _ _).mp hu with hu | rfl
              · exact hw u hu
              · exact hc u hch
            · intro t u hu
              rcases (mem_subsOfL_subscribeMany _ _ _ _ _).mp hu with hu | ⟨rfl, _⟩
              · exact hsub t u hu
              · exact hc u hch
          · simp [stepEvent, hch] at hstep
      | handshakeFail url =>
          by_cases hch : url ∈ s.channels
          · simp only [stepEvent, if_pos hch] at hstep
            injection hstep with h'
            subst h'
            refine ⟨hnd, hw, ?_, hsub, hids⟩
            intro u hu
            exact hc u (mem_of_mem_removeFirst hu)
          · simp [stepEvent, hch] at hstep
      | removeW url =>
          simp only [stepEvent] at hstep
          injection hstep with h'
          subst h'
          by_cases hmem : url ∈ s.widgets
          · simp only [removeWidget, if_pos hmem]
            refine ⟨hnd.sublist (removeFirst_sublist _ _), ?_, ?_, ?_, hids⟩
            · intro u hu
              exact hw u (mem_of_mem_removeFirst hu)
            · intro u hu
              exact hc u (mem_of_mem_removeFirst hu)
            · intro t u hu
              rw [subsOfL_map_removeLast] at hu
              exact hsub t u (mem_of_mem_removeLastOcc hu)
          · simp only [removeWidget, if_neg hmem]
            exact ⟨hnd, hw, hc, hsub, hids⟩

/-! ### Concrete reachable states used by counterexamples and witnesses -/

/-- State after `addWidget("a", {})` on a fresh Manager: the channel is up and
the handshake is in flight, `_widgets` is still empty. -/
def inflightA : ManagerState :=
  { widgets := [], subscribers := [], channels := ["a"], channelNr := 1,
    channelIds := ["widget0"], registered := ["a"] }

theorem inflightA_reachable : Reachable inflightA :=
  Reachable.next (e := Event.addW "a") Reachable.init (by decide)

/-- State after the in-flight widget `"a"` has sent one remote
`subscribe("t")` call. -/
def subOnceState : ManagerState :=
  { widgets := [], subscribers := [("t", ["a"])], channels := ["a"], channelNr := 1,
    channelIds := ["widget0"], registered := ["a"] }

theorem subOnceState_reachable : Reachable subOnceState :=
  Reachable.next (e := Event.subscribeFrom "a" "t") inflightA_reachable (by decide)

/-- State after widget `"a"` has sent `subscribe("t")` twice: the table holds
`"a"` twice under `"t"` while `"a"` is not yet active. -/
def dupSubState : ManagerState :=
  { widgets := [], subscribers := [("t", ["a", "a"])], channels := ["a"], channelNr := 1,
    channelIds := ["widget0"], registered := ["a"] }

theorem dupSubState_reachable : Reachable dupSubState :=
  Reachable.next (e := Event.subscribeFrom "a" "t") subOnceState_reachable (by decide)

/-- State after the doubly-subscribed widget `"a"` completes its handshake
with no declared topics. -/
def dupActiveState : ManagerState :=
  { widgets := ["a"], subscribers := [("t", ["a", "a"])], channels := ["a"], channelNr := 1,
    channelIds := ["widget0"], registered := ["a"] }

theorem dupActiveState_reachable : Reachable dupActiveState :=
  Reachable.next (e := Event.handshakeOk "a" []) dupSubState_reachable (by decide)

/-- State after `removeWidget("a")` on `dupActiveState`: the record is gone
but one occurrence of `"a"` survives under topic `"t"`. -/
def removedDupState : ManagerState :=
  { widgets := [], subscribers := [("t", ["a"])], channels := [], channelNr := 1,
    channelIds := ["widget0"], registered := ["a"] }

theorem removedDupState_reachable : Reachable removedDupState :=
  Reachable.next (e := Event.removeW "a") dupActiveState_reachable (by decide)

/-- State after widget `"a"` subscribed once to `"t"` and then completed its
handshake declaring topic `"u"`. -/
def sampleState : ManagerState :=
  { widgets := ["a"], subscribers := [("t", ["a"]), ("u", ["a"])], channels := ["a"],
    channelNr := 1, channelIds := ["widget0"], registered := ["a"] }

theorem sampleState_reachable : Reachable sampleState :=
  Reachable.next (e := Event.handshakeOk "a" ["u"]) subOnceState_reachable (by decide)

/-- Result of a second `addWidget("a", {})` issued while the first handshake
is still in flight: the check passes and a second channel is opened. -/
def secondAddState : ManagerState :=
  { widgets := [], subscribers := [], channels := ["a", "a"], channelNr := 2,
    channelIds := ["widget0", "widget1"], registered := ["a", "a"] }

/-- State after widget `"a"` failed its handshake: its channel was destroyed
and its record discarded. -/
def failedAState : ManagerState :=
  { widgets := [], subscribers := [], channels := [], channelNr := 1,
    channelIds := ["widget0"], registered := ["a"] }

theorem failedAState_reachable : Reachable failedAState :=
  Reachable.next (e := Event.handshakeFail "a") inflightA_reachable (by decide)

/-- State after widget `"a"` failed its handshake and was added again. -/
def reAddState : ManagerState :=
  { widgets := [], subscribers := [], channels := ["a"], channelNr := 2,
    channelIds := ["widget0", "widget1"], registered := ["a", "a"] }

theorem reAddState_reachable : Reachable reAddState :=
  Reachable.next (e := Event.addW "a") failedAState_reachable (by decide)

/-- Two active peers `"a"` and `"b"`, both subscribed to topic `"t"`. -/
def twoPeerState : ManagerState :=
  { widgets := ["a", "b"], subscribers := [("t", ["a", "b"])], channels := ["a", "b"],
    channelNr := 2, channelIds := ["widget0", "widget1"], registered := ["b", "a"] }

/-! ### Relay behaviour of `_publish` -/

theorem sendToSubscribers_ok (widgets : List String) (url topic data : String) :
    ∀ l : List String, (∀ u ∈ l, u = url ∨ u ∈ widgets) →
      ∃ calls, sendToSubscribers widgets url topic data l = Except.ok calls ∧
        (∀ c ∈ calls, c.senderUrl = url ∧ c.topic = topic ∧ c.data = data) ∧
        (∀ u, (∃ c ∈ calls, c.target = u) ↔ (u ∈ l ∧ u ≠ url)) := by
  intro l
  induction l with
  | nil =>
      intro _
      exact ⟨[], rfl, by simp, by simp⟩
  | cons w rest ih =>
      intro hall
      obtain ⟨calls, hok, hfields, htgt⟩ := ih (fun u hu => hall u (List.mem_cons_of_mem _ hu))
      by_cases hw : w = url
      · refine ⟨calls, ?_, hfields, ?_⟩
        · simp [sendToSubscribers, hw, hok]
        · intro u
          rw [htgt u]
          subst hw
          constructor
          · rintro ⟨hu, hne⟩
            exact ⟨List.mem_cons_of_mem _ hu, hne⟩
          · rintro ⟨hu, hne⟩
            rcases List.mem_cons.mp hu with rfl | hu
            · exact absurd rfl hne
            · exact ⟨hu, hne⟩
      · have hwmem : w ∈ widgets := (hall w (List.mem_cons_self _ _)).resolve_left hw
        refine ⟨⟨w, url, topic, data⟩ :: calls, ?_, ?_, ?_⟩
        · simp only [sendToSubscribers, if_neg hw, if_pos hwmem, hok]
        · intro c hc
          rcases List.mem_cons.mp hc with rfl | hc
          · exact ⟨rfl, rfl, rfl⟩
          · exact hfields c hc
        · intro u
          constructor
          · rintro ⟨c, hc, rfl⟩
            rcases List.mem_cons.mp hc with rfl | hc
            · exact ⟨List.mem_cons_self _ _, hw⟩
            · obtain ⟨hu, hne⟩ := (htgt c.target).mp ⟨c, hc, rfl⟩
              exact ⟨List.mem_cons_of_mem _ hu, hne⟩
          · rintro ⟨hu, hne⟩
            rcases List.mem_cons.mp hu with rfl | hu
            · exact ⟨⟨u, url, topic, data⟩, List.mem_cons_self _ _, rfl⟩
            · obtain ⟨c, hc, hct⟩ := (htgt u).mpr ⟨hu, hne⟩
              exact ⟨c, List.mem_cons_of_mem _ hc, hct⟩

/-! ### Claim theorems -/

/-- C1 counterexample: the claimed relay is not unconditional.  In the
reachable state where the in-flight widget `"a"` has subscribed to `"t"` but
its handshake has not resolved, `SubscriptionTable["t"] = ["a"]` with `"a"`
not a key of `_widgets`, so `publish("t", d)` by the Manager (sender `""`)
evaluates `_widgets["a"].send(...)` on `undefined` and throws a `TypeError`
instead of relaying. -/
theorem publish_crashes_on_inactive_subscriber :
    Reachable subOnceState ∧ "a" ∈ subsOfL subOnceState.subscribers "t" ∧
      "a" ∉ subOnceState.widgets ∧
      _publish subOnceState "" "t" "d" =
        Except.error "TypeError: cannot call send of undefined" :=
  ⟨subOnceState_reachable, by decide, by decide, rfl⟩

/-- C1 amended: for every topic `T`, payload `d` and sender `S` (an active
peer url or the empty string for the Manager itself), *provided every url in
`SubscriptionTable[T]` is an active widget* — which reachable states may
violate — `_publish` succeeds and issues `send(S, T, d)` on exactly the urls
in `SubscriptionTable[T]` other than `S`: `S` never receives it, no url
outside the table receives it, and with no subscribers no call is issued. -/
theorem publish_relays_exactly (s : ManagerState) (S T d : String)
    (hact : ∀ u ∈ subsOfL s.subscribers T, u ∈ s.widgets) :
    ∃ calls, _publish s S T d = Except.ok calls ∧
      (∀ c ∈ calls, c.senderUrl = S ∧ c.topic = T ∧ c.data = d) ∧
      (∀ u, (∃ c ∈ calls, c.target = u) ↔ (u ∈ subsOfL s.subscribers T ∧ u ≠ S)) := by
  cases hl : lookupSubs s.subscribers T with
  | none =>
      refine ⟨[], ?_, by simp, ?_⟩
      · simp [ _publish, hl]
      · intro u
        simp [subsOfL, hl]
  | some us =>
      have hsubs : subsOfL s.subscribers T = us := by simp [subsOfL, hl]
      obtain ⟨calls, hok, hfields, htgt⟩ :=
        sendToSubscribers_ok s.widgets S T d us.reverse
          (fun u hu => Or.inr (hact u (by rw [hsubs]; exact List.mem_reverse.mp hu)))
      refine ⟨calls, ?_, hfields, ?_⟩
      · simp [ _publish, hl, hok]
      · intro u
        rw [htgt u, hsubs, List.mem_reverse]

/-- C1 witness: in the two-peer state where `"a"` and `"b"` are active and
both subscribe to `"t"`, a publish by sender `"a"` is delivered exactly as
the claim states. -/
theorem publish_relays_exactly_witness :
    (∀ u ∈ subsOfL twoPeerState.subscribers "t", u ∈ twoPeerState.widgets) ∧
      (∃ calls, _publish twoPeerState "a" "t" "d" = Except.ok calls ∧
        (∀ c ∈ calls, c.senderUrl = "a" ∧ c.topic = "t" ∧ c.data = "d") ∧
        (∀ u, (∃ c ∈ calls, c.target = u) ↔
          (u ∈ subsOfL twoPeerState.subscribers "t" ∧ u ≠ "a"))) :=
  ⟨by decide, publish_relays_exactly twoPeerState "a" "t" "d" (by decide)⟩

/-- C2 counterexample: `addWidget("a")` issued while the first record for
`"a"` is still in flight (channel open, handshake unresolved) does not throw
— the source only checks `url in _widgets`, populated on handshake success —
so the claimed `DuplicateWidgetError` on in-flight records does not occur. -/
theorem addWidget_inflight_does_not_throw :
    Reachable inflightA ∧ "a" ∈ inflightA.channels ∧ "a" ∉ inflightA.widgets ∧
      addWidget inflightA "a" = Except.ok secondAddState :=
  ⟨inflightA_reachable, by decide, by decide, rfl⟩

/-- C2 amended: `addWidget(url)` throws its duplicate error exactly when a
record for `url` is *active* (its handshake succeeded and it was not
removed); in-flight records do not block a second `addWidget`, and urls whose
record failed-and-was-discarded or was destroyed by `removeWidget` are no
longer in `_widgets`, so re-adding them succeeds. -/
theorem addWidget_throws_iff_active (s : ManagerState) (url : String) :
    (∃ e, addWidget s url = Except.error e) ↔ url ∈ s.widgets := by
  unfold addWidget
  by_cases h : url ∈ s.widgets <;> simp [h]

/-- C3 counterexample: a reachable state in which the subscription table is
not well-formed in both claimed respects — widget `"a"` called
`subscribe("t")` twice while its handshake was still in flight, so `"a"`
occurs twice under `"t"` and is referenced without being active. -/
theorem subscription_table_not_wellformed :
    Reachable dupSubState ∧ ¬ (subsOfL dupSubState.subscribers "t").Nodup ∧
      "a" ∈ subsOfL dupSubState.subscribers "t" ∧ "a" ∉ dupSubState.widgets :=
  ⟨dupSubState_reachable, by decide, by decide, by decide⟩

/-- C3 amended: the table need not be duplicate-free and may reference
in-flight or even already-failed urls; what every reachable state does
guarantee is that any url referenced anywhere in the SubscriptionTable was
registered through a (non-throwing) `addWidget` call at some point. -/
theorem subscription_table_urls_registered {s : ManagerState} (h : Reachable s)
    (t u : String) (hu : u ∈ subsOfL s.subscribers t) : u ∈ s.registered :=
  (reachable_inv h).2.2.2.1 t u hu

/-- C3 amended witness: in the reachable state where `"a"` subscribed to
`"t"` and then activated, `"a"` is indeed among the registered urls. -/
theorem subscription_table_urls_registered_witness :
    "a" ∈ subsOfL sampleState.subscribers "t" ∧ "a" ∈ sampleState.registered :=
  ⟨by decide,
    subscription_table_urls_registered sampleState_reachable "t" "a" (by decide)⟩

/-- C4: when a peer's `initialize` call resolves with success and declared
topics, the success branch of `_initializeWidget` puts the url into
`_widgets` (the record becomes active) and, for every declared topic `t`,
adds the url to `SubscriptionTable[t]`. -/
theorem handshake_success_activates (s : ManagerState)
    (listeners : Option (List (String × Nat))) (url : String) (topics : List String)
    (t : String) (ht : t ∈ topics) :
    url ∈ ( _initializeWidget s listeners url ⟨true, topics⟩).1.widgets ∧
      url ∈ subsOfL ( _initializeWidget s listeners url ⟨true, topics⟩).1.subscribers t := by
  have h1 : ( _initializeWidget s listeners url ⟨true, topics⟩).1
      = handshakeSuccess s url topics := rfl
  rw [h1]
  unfold handshakeSuccess
  constructor
  · exact (mem_insertIfAbsent _ _ _).mpr (Or.inr rfl)
  · exact (mem_subsOfL_subscribeMany _ _ _ _ _).mpr
      (Or.inr ⟨rfl, List.mem_reverse.mpr ht⟩)

/-- C4 witness: a successful handshake of `"a"` declaring `["x", "y"]` makes
`"a"` active and a subscriber of `"x"`. -/
theorem handshake_success_activates_witness :
    ("x" ∈ (["x", "y"] : List String)) ∧
      ("a" ∈ ( _initializeWidget initialState none "a" ⟨true, ["x", "y"]⟩).1.widgets ∧
        "a" ∈ subsOfL ( _initializeWidget initialState none "a"
          ⟨true, ["x", "y"]⟩).1.subscribers "x") :=
  ⟨by decide, handshake_success_activates initialState none "a" ["x", "y"] "x" (by decide)⟩

/-- C5 (code defect): `_raiseEvent`'s own doc says it raises the specified
event, and `_initializeWidget` passes `"widgetinitialized"` respectively
`"widgetfailed"`, but the body reads `config.listeners.event` — the property
literally named `"event"` — so listeners registered under the event names
are never invoked on handshake completion (first two conjuncts), while a
listener stored under the key `"event"` is invoked whatever event fires
(third conjunct). -/
theorem listener_dispatch_defect :
    ( _initializeWidget initialState
        (some [("onInitialized", 1), ("widgetinitialized", 2),
          ("onFailed", 3), ("widgetfailed", 4)]) "a" ⟨true, []⟩).2 = [] ∧
      ( _initializeWidget initialState
        (some [("onInitialized", 1), ("widgetinitialized", 2),
          ("onFailed", 3), ("widgetfailed", 4)]) "a" ⟨false, []⟩).2 = [] ∧
      _raiseEvent (some [("event", 9)]) "widgetinitialized" "a" = [(9, "a")] :=
  ⟨rfl, rfl, rfl⟩

/-- C6 (code defect): `broadcast` misspells `hasOwnProperty` as
`hasOwnPropert`, so with at least one active widget the first loop iteration
throws a `TypeError` and nothing is delivered; only with zero widgets does it
return normally — contradicting both the claim's unconditional delivery and
its never-raises part. -/
theorem broadcast_defect :
    Reachable sampleState ∧ sampleState.widgets = ["a"] ∧
      broadcast sampleState "d" =
        Except.error "TypeError: _widgets.hasOwnPropert is not a function" ∧
      broadcast initialState "d" = Except.ok [] :=
  ⟨sampleState_reachable, rfl, rfl, rfl⟩

/-- C7 counterexample: `removeWidget` on the *active* url `"a"` — reachable
with `"a"` listed twice under topic `"t"` — splices only the last occurrence
per topic and breaks, so `"a"` is still in `SubscriptionTable["t"]` after its
record was deleted. -/
theorem removeWidget_leaves_duplicate_subscription :
    Reachable dupActiveState ∧ "a" ∈ dupActiveState.widgets ∧
      removeWidget dupActiveState "a" = removedDupState ∧
      "a" ∈ subsOfL removedDupState.subscribers "t" ∧
      removedDupState.widgets = [] :=
  ⟨dupActiveState_reachable, by decide, rfl, by decide, rfl⟩

/-- C7 amended: `removeWidget(url)` on a url with no active record is a
no-op (it is a total function, so it never raises); on an active url it
deletes the record, destroys the channel, and removes at most one occurrence
of `url` per topic — so `url` is absent from every topic afterwards provided
no topic listed it more than once. -/
theorem removeWidget_spec (s : ManagerState) (hs : Reachable s) (url : String) :
    (url ∉ s.widgets → removeWidget s url = s) ∧
      (url ∈ s.widgets →
        (removeWidget s url).widgets = removeFirst s.widgets url ∧
        url ∉ (removeWidget s url).widgets ∧
        (removeWidget s url).channels = removeFirst s.channels url ∧
        ∀ t, (subsOfL s.subscribers t).count url ≤ 1 →
          url ∉ subsOfL (removeWidget s url).subscribers t) := by
  constructor
  · intro h
    simp [removeWidget, h]
  · intro h
    have hnd := (reachable_inv hs).1
    refine ⟨by simp [removeWidget, h], ?_, by simp [removeWidget, h], ?_⟩
    · simp only [removeWidget, if_pos h]
      exact not_mem_removeFirst_of_count_le_one (List.nodup_iff_count_le_one.mp hnd url)
    · intro t hcount
      simp only [removeWidget, if_pos h]
      rw [subsOfL_map_removeLast]
      exact not_mem_removeLastOcc_of_count_le_one hcount

/-- C7 amended witness: removing the active, singly-subscribed widget `"a"`
from `sampleState` deletes its record and clears it from topic `"t"`. -/
theorem removeWidget_spec_witness :
    ("a" ∈ sampleState.widgets ∧ (subsOfL sampleState.subscribers "t").count "a" ≤ 1) ∧
      ("a" ∉ (removeWidget sampleState "a").widgets ∧
        "a" ∉ subsOfL (removeWidget sampleState "a").subscribers "t") :=
  ⟨by decide,
    ((removeWidget_spec sampleState sampleState_reachable "a").2 (by decide)).2.1,
    ((removeWidget_spec sampleState sampleState_reachable "a").2 (by decide)).2.2.2
      "t" (by decide)⟩

/-- C8 counterexample: a hosted application that calls `subscribe("x")`
inside its `initialize` callback (and whose `config.subscriptions` does not
list `"x"`) produces a handshake response whose `subscriptions` does *not*
contain `"x"` — the wrapper answers with the static `config.subscriptions`
array, not with the topics passed to `subscribe`. -/
theorem handshake_response_ignores_initialize_subscribes :
    "x" ∈ widgetConstructOutbound ⟨[], ["x"]⟩ ∧
      "x" ∉ (widgetInitializeResponse ⟨[], ["x"]⟩).subscriptions := by
  decide

/-- C8 amended: the handshake response always carries exactly
`config.subscriptions`; a `subscribe("x")` made inside the `initialize`
callback instead travels as its own remote `subscribe` call, which — once
processed by a Manager holding the widget's live channel — enters the url
into `SubscriptionTable["x"]` directly, independent of the handshake
response. -/
theorem widget_subscribe_goes_directly_to_manager (cfg : WidgetConfig)
    (s : ManagerState) (url t : String) (ht : t ∈ widgetConstructOutbound cfg)
    (hch : url ∈ s.channels) :
    (widgetInitializeResponse cfg).subscriptions = cfg.subscriptions ∧
      ∃ s', stepEvent s (Event.subscribeFrom url t) = some s' ∧
        url ∈ subsOfL s'.subscribers t := by
  refine ⟨rfl, ⟨{ s with subscribers := _subscribe s.subscribers url t }, ?_, ?_⟩⟩
  · simp [stepEvent, hch]
  · simp [subsOfL_subscribe]

/-- C8 amended witness: the wrapper configured with no static subscriptions
whose `initialize` callback subscribes to `"x"` reports an empty handshake
list, while its remote subscribe call registers `"a"` under `"x"` at the
in-flight Manager state. -/
theorem widget_subscribe_goes_directly_to_manager_witness :
    ("x" ∈ widgetConstructOutbound ⟨[], ["x"]⟩ ∧ "a" ∈ inflightA.channels) ∧
      ((widgetInitializeResponse ⟨[], ["x"]⟩).subscriptions = ([] : List String) ∧
        ∃ s', stepEvent inflightA (Event.subscribeFrom "a" "x") = some s' ∧
          "a" ∈ subsOfL s'.subscribers "x") :=
  ⟨by decide,
    widget_subscribe_goes_directly_to_manager ⟨[], ["x"]⟩ inflightA "a" "x"
      (by decide) (by decide)⟩

/-- C9 counterexample: an inbound `send` on a wrapper on which
`registerMessageHandler` was never called evaluates
`_incomingMessageHandler(url, topic, data)` with the variable still
undefined, so it throws a `TypeError` instead of silently dropping the
message. -/
theorem send_without_handler_throws :
    widgetReceiveSend none "s" "t" "d" =
      Except.error "TypeError: _incomingMessageHandler is not a function" :=
  rfl

/-- C9 amended: an inbound `send(senderUrl, topic, data)` with no registered
handler raises a `TypeError` (the wrapper does not guard the call); with a
registered handler it dispatches the three arguments to that handler. -/
theorem widget_send_dispatch (url topic data : String) :
    (∃ e, widgetReceiveSend none url topic data = Except.error e) ∧
      ∀ h, widgetReceiveSend (some h) url topic data = Except.ok (h, url, topic, data) :=
  ⟨⟨_, rfl⟩, fun h => rfl⟩

/-- C10: in every reachable state of one Manager, the channel ids handed out
so far are exactly `"widget0", "widget1", ...` — the strictly increasing
`_channelNr` counter prefixed by `"widget"` — and therefore pairwise
distinct, even across re-additions of a url after handshake failure or
`removeWidget`. -/
theorem channel_ids_distinct {s : ManagerState} (h : Reachable s) :
    s.channelIds = (List.range s.channelNr).map mkChannelId ∧ s.channelIds.Nodup := by
  have hids := (reachable_inv h).2.2.2.2
  refine ⟨hids, ?_⟩
  rw [hids]
  exact (List.nodup_range _).map mkChannelId_injective

/-- C10 witness: after `"a"` was added, failed its handshake and was added
again, the two channels carry the distinct ids `"widget0"` and `"widget1"`. -/
theorem channel_ids_distinct_witness :
    reAddState.channelIds = (List.range reAddState.channelNr).map mkChannelId ∧
      reAddState.channelIds.Nodup :=
  channel_ids_distinct reAddState_reachable

end EasyXDM
